import Mathlib

/-!
Verification development for the dialect-transcription-service repository.

The definitions below are a shallow embedding of the Python sources:
  - `app/main.py` (endpoints `transcribe_audio`, `retry_transcription`,
    `transcribe_from_url`, `health_check`),
  - `app/services/supabase_service.py` (`SupabaseService`),
  - `app/services/transcription_service.py` (`TranscriptionService`).

Conventions of the embedding:
  - Python exceptions are modelled with `Except`; an exception is its
    message string (Python `str(e)`).
  - Outcomes of external calls (Supabase writes, storage download, the
    Whisper API call) are passed in explicitly through an `Outcomes`
    record, since the network can make any of them fail.
  - The Supabase database visible to this service is modelled as the two
    tables the repository mentions: `memos` and `memo_replies`.
-/

/-- A row of the `memos` table, with the fields the service reads/writes. -/
structure MemoRow where
  id : String
  status : String
  audio_url : String
  transcript : Option String
deriving DecidableEq

/-- A row of the `memo_replies` table (keyed by `reply_id`), as used in
`test_record_types.py`. -/
structure ReplyRow where
  reply_id : String
  status : String
  audio_url : String
  transcript : Option String
deriving DecidableEq

/-- The backend database of one environment: the two record tables. -/
structure Database where
  memos : List MemoRow
  memo_replies : List ReplyRow
deriving DecidableEq

/-- Embeds `SupabaseService.get_memo` (supabase_service.py lines 129-163):
`client.table("memos").select("*").eq("id", memo_id).execute()`, raising
when no row matches, else returning `response.data[0]` (the first match). -/
def get_memo (db : Database) (memo_id : String) : Except String MemoRow :=
  match db.memos.find? (fun r => r.id == memo_id) with
  | some r => Except.ok r
  | none => Except.error ("Memo with ID " ++ memo_id ++ " not found")

/-- The partial update `update_memo_status` applies to one row:
`update_data = {"status": status}` plus `transcript` only when supplied. -/
def applyStatus (status : String) (transcript : Option String) (r : MemoRow) : MemoRow :=
  { r with
    status := status
    transcript := match transcript with
      | some t => some t
      | none => r.transcript }

/-- Embeds `SupabaseService.update_memo_status` (supabase_service.py lines
165-200): `client.table("memos").update(update_data).eq("id", memo_id)`.
The update touches every row whose `id` matches and nothing else. The
`ok` flag is the outcome of the backend call; on failure the method logs
and re-raises, leaving the table unchanged. -/
def update_memo_status (db : Database) (memo_id status : String)
    (transcript : Option String) (ok : Bool) : Except String Database :=
  if ok then
    Except.ok { db with
      memos := db.memos.map (fun r =>
        if r.id == memo_id then applyStatus status transcript r else r) }
  else
    Except.error ("update failed for status " ++ status)

deriving instance DecidableEq for Except

/-- Outcomes of the external calls made by one `transcribe_audio`
invocation, abstracting network success/failure of each step. -/
structure Outcomes where
  writeTranscribingOk : Bool
  downloadResult : Except String String
  transcribeResult : Except String String
  writeCompletedOk : Bool
  writeErrorOk : Bool
deriving DecidableEq

/-- The error envelope of an HTTPException raised by main.py. -/
structure HttpError where
  status_code : Nat
  error : String
  message : String
deriving DecidableEq

/-- The success payload of `/transcribe`. -/
structure OkResponse where
  memoId : String
  transcript : String
  environment : String
deriving DecidableEq

/-- Embeds `raise Exception(f"{error_type}: {str(e)}")` (main.py line 147);
the dynamic class name is collapsed to the literal `Exception` since the
embedding represents every raised error by its message. -/
def annotate (e : String) : String := "Exception: " ++ e

/-- The inner `except` block of `transcribe_audio` (main.py lines 143-147):
attempt the status write to `error`, then re-raise the annotated original
error. The write is NOT guarded: when it fails, its own exception
propagates out of the block instead of the original one. -/
def failurePath (db1 : Database) (memo_id e : String) (o : Outcomes) :
    Except String OkResponse × Database :=
  match update_memo_status db1 memo_id "error" none o.writeErrorOk with
  | Except.error e2 => (Except.error e2, db1)
  | Except.ok db2 => (Except.error (annotate e), db2)

/-- The inner `try` block of `transcribe_audio` (main.py lines 115-147):
step 3 download, step 4 transcription, step 5 completion write; any
failure goes through `failurePath`. -/
def innerSteps (db1 : Database) (memo_id env : String) (o : Outcomes) :
    Except String OkResponse × Database :=
  match o.downloadResult with
  | Except.error e => failurePath db1 memo_id e o
  | Except.ok _path =>
    match o.transcribeResult with
    | Except.error e => failurePath db1 memo_id e o
    | Except.ok transcript =>
      match update_memo_status db1 memo_id "completed" (some transcript) o.writeCompletedOk with
      | Except.error e => failurePath db1 memo_id e o
      | Except.ok db2 => (Except.ok ⟨memo_id, transcript, env⟩, db2)

/-- The outer `except` of `transcribe_audio` (main.py lines 149-160):
any exception becomes HTTP 500 with error code `processing_error`. -/
def mkProcessingError (msg : String) : HttpError :=
  ⟨500, "processing_error", msg⟩

/-- Embeds the `/transcribe` orchestrator `transcribe_audio`
(main.py lines 84-160): fetch the memo, write status `transcribing`,
then run the inner steps; every failure surfaces as HTTP 500
`processing_error`. Returns the response together with the resulting
database state. -/
def transcribe_audio (db : Database) (memo_id env : String) (o : Outcomes) :
    Except HttpError OkResponse × Database :=
  match get_memo db memo_id with
  | Except.error e => (Except.error (mkProcessingError e), db)
  | Except.ok _memo =>
    match update_memo_status db memo_id "transcribing" none o.writeTranscribingOk with
    | Except.error e => (Except.error (mkProcessingError e), db)
    | Except.ok db1 =>
      match innerSteps db1 memo_id env o with
      | (Except.ok resp, db2) => (Except.ok resp, db2)
      | (Except.error e, db2) => (Except.error (mkProcessingError e), db2)

/-- The 400 message of `/retry-transcribe` (apostrophes of the Python
literal omitted). -/
def invalidRetryMessage (status : String) : String :=
  "Cannot retry a memo with status " ++ status ++
    ". Only memos with error status can be retried."

/-- Embeds the `/retry-transcribe` orchestrator `retry_transcription`
(main.py lines 162-213): fetch the memo; unless its status is exactly
`error`, fail with HTTP 400 `invalid_retry` without writing anything;
otherwise delegate to `transcribe_audio`. Non-HTTP exceptions become
HTTP 500 `retry_error`; HTTPExceptions are re-raised as-is. -/
def retry_transcription (db : Database) (memo_id env : String) (o : Outcomes) :
    Except HttpError OkResponse × Database :=
  match get_memo db memo_id with
  | Except.error e => (Except.error ⟨500, "retry_error", e⟩, db)
  | Except.ok memo =>
    if memo.status ≠ "error" then
      (Except.error ⟨400, "invalid_retry", invalidRetryMessage memo.status⟩, db)
    else
      transcribe_audio db memo_id env o

/-- Helper: after `update_memo_status` succeeds, every row whose id
matches carries the written status. -/
theorem mem_map_update_status (l : List MemoRow) (memo_id status : String)
    (tr : Option String) (r : MemoRow)
    (hr : r ∈ l.map (fun x => if x.id == memo_id then applyStatus status tr x else x))
    (hid : r.id = memo_id) : r.status = status := by
  simp only [List.mem_map] at hr
  obtain ⟨a, _ha, rfl⟩ := hr
  by_cases hb : (a.id == memo_id) = true
  · simp [hb, applyStatus]
  · rw [if_neg hb] at hid ⊢
    exact absurd (by simp [hid]) hb

/-- Concrete record and outcomes used by the counterexamples: the fetch
and the `transcribing` write succeed, the download fails, and the
best-effort `error` write also fails. -/
def cexDb : Database := ⟨[⟨"m1", "pending", "a.m4a", none⟩], []⟩

def cexOutcomes : Outcomes :=
  ⟨true, Except.error "boom", Except.ok "T", true, false⟩

/-- Same scenario but the best-effort `error` write succeeds. -/
def cexOutcomesOk : Outcomes :=
  ⟨true, Except.error "boom", Except.ok "T", true, true⟩

/-- Claim C1, counterexample: when the download fails and the best-effort
`error` write also fails, `transcribe_audio` returns with the record still
in status `transcribing` — not a terminal status. -/
theorem c1_counterexample :
    ((transcribe_audio cexDb "m1" "production" cexOutcomes).2.memos.map MemoRow.status)
      = ["transcribing"] ∧
    ("transcribing" ≠ "completed" ∧ "transcribing" ≠ "error") := by
  decide

/-- Claim C1 (amended): if the fetch and the `transcribing` write succeed
and the best-effort `error` write succeeds whenever attempted, then after
`transcribe_audio` returns the record is in a terminal status
(`completed` or `error`), whatever the outcomes of the download, the
transcription and the completion write. -/
theorem c1_terminal_status (db : Database) (memo_id env : String) (o : Outcomes)
    (memo : MemoRow)
    (hfetch : get_memo db memo_id = Except.ok memo)
    (hw : o.writeTranscribingOk = true)
    (herr : o.writeErrorOk = true) :
    ∀ r ∈ (transcribe_audio db memo_id env o).2.memos,
      r.id = memo_id → r.status = "completed" ∨ r.status = "error" := by
  unfold transcribe_audio
  rw [hfetch]
  unfold update_memo_status
  rw [hw]
  simp only [if_true]
  unfold innerSteps
  cases hdl : o.downloadResult with
  | error e =>
    unfold failurePath update_memo_status
    rw [herr]
    simp only [if_true]
    exact fun r hr hid => Or.inr (mem_map_update_status _ memo_id "error" none r hr hid)
  | ok p =>
    cases htr : o.transcribeResult with
    | error e =>
      unfold failurePath update_memo_status
      rw [herr]
      simp only [if_true]
      exact fun r hr hid => Or.inr (mem_map_update_status _ memo_id "error" none r hr hid)
    | ok t =>
      cases hcw : o.writeCompletedOk with
      | true =>
        unfold update_memo_status
        simp only [if_true]
        exact fun r hr hid => Or.inl (mem_map_update_status _ memo_id "completed" (some t) r hr hid)
      | false =>
        unfold update_memo_status failurePath update_memo_status
        rw [herr]
        simp only [if_true, if_false]
        exact fun r hr hid => Or.inr (mem_map_update_status _ memo_id "error" none r hr hid)

/-- Witness for `c1_terminal_status` at the concrete failing download with
a succeeding best-effort write. -/
theorem c1_terminal_status_witness :
    (⟨"m1", "error", "a.m4a", none⟩ : MemoRow).status = "completed" ∨
    (⟨"m1", "error", "a.m4a", none⟩ : MemoRow).status = "error" :=
  c1_terminal_status cexDb "m1" "production" cexOutcomesOk
    ⟨"m1", "pending", "a.m4a", none⟩ (by decide) rfl rfl
    ⟨"m1", "error", "a.m4a", none⟩ (by decide) rfl

/-- Claim C2, counterexample: the download fails with message `boom`, the
best-effort `error` write also fails; the error propagated to the caller
carries the secondary write failure message, not the (annotated) original
download error. -/
theorem c2_counterexample :
    (transcribe_audio cexDb "m1" "production" cexOutcomes).1 =
      Except.error ⟨500, "processing_error", "update failed for status error"⟩ ∧
    "update failed for status error" ≠ annotate "boom" := by
  decide

/-- The exception the inner `except` block of `transcribe_audio`
receives: the first of steps 3-5 (download, transcription, completion
write) to fail, failed with message `e`. -/
def stepFailedWith (o : Outcomes) (e : String) : Prop :=
  o.downloadResult = Except.error e ∨
  (∃ p, o.downloadResult = Except.ok p ∧ o.transcribeResult = Except.error e) ∨
  (∃ p t, o.downloadResult = Except.ok p ∧ o.transcribeResult = Except.ok t ∧
    o.writeCompletedOk = false ∧ e = "update failed for status completed")

/-- Claim C2 (amended): whenever any step after the `transcribing` write
fails — the download, the transcription, or the completion write, with
original message `e` — the orchestrator attempts the best-effort `error`
write; if that secondary write succeeds, the annotated original error
propagates, but if the secondary write itself fails, its failure is NOT
swallowed — the secondary write error, not the original one, is the
message propagated to the caller. -/
theorem c2_secondary_write_not_swallowed (db : Database) (memo_id env e : String)
    (o : Outcomes) (memo : MemoRow)
    (hfetch : get_memo db memo_id = Except.ok memo)
    (hw : o.writeTranscribingOk = true)
    (hfail : stepFailedWith o e) :
    (o.writeErrorOk = true →
      (transcribe_audio db memo_id env o).1 =
        Except.error (mkProcessingError (annotate e))) ∧
    (o.writeErrorOk = false →
      (transcribe_audio db memo_id env o).1 =
        Except.error (mkProcessingError ("update failed for status error"))) := by
  constructor <;> intro herr <;>
    · unfold transcribe_audio
      rw [hfetch]
      unfold update_memo_status
      rw [hw]
      simp only [if_true]
      unfold innerSteps
      rcases hfail with hdl | ⟨p, hdl, htr⟩ | ⟨p, t, hdl, htr, hcw, he⟩
      · rw [hdl]
        unfold failurePath update_memo_status
        rw [herr]
        simp
      · rw [hdl, htr]
        unfold failurePath update_memo_status
        rw [herr]
        simp
      · subst he
        rw [hdl, htr]
        unfold update_memo_status failurePath
        rw [hcw, herr]
        simp [update_memo_status]

/-- Witness for `c2_secondary_write_not_swallowed` at the concrete
counterexample scenario. -/
theorem c2_secondary_write_not_swallowed_witness :
    (cexOutcomes.writeErrorOk = true →
      (transcribe_audio cexDb "m1" "production" cexOutcomes).1 =
        Except.error (mkProcessingError (annotate "boom"))) ∧
    (cexOutcomes.writeErrorOk = false →
      (transcribe_audio cexDb "m1" "production" cexOutcomes).1 =
        Except.error (mkProcessingError ("update failed for status error"))) :=
  c2_secondary_write_not_swallowed cexDb "m1" "production" "boom" cexOutcomes
    ⟨"m1", "pending", "a.m4a", none⟩ (by decide) rfl (Or.inl rfl)

/-- Claim C3: retry is gated on status exactly `error`. If the fetched
record has any other status, `retry_transcription` answers HTTP 400 with
error code `invalid_retry` and leaves the database untouched; if the
status is exactly `error`, it delegates to `transcribe_audio`. -/
theorem c3_retry_gating (db : Database) (memo_id env : String) (o : Outcomes)
    (memo : MemoRow)
    (hfetch : get_memo db memo_id = Except.ok memo) :
    (memo.status ≠ "error" →
      retry_transcription db memo_id env o =
        (Except.error ⟨400, "invalid_retry", invalidRetryMessage memo.status⟩, db)) ∧
    (memo.status = "error" →
      retry_transcription db memo_id env o = transcribe_audio db memo_id env o) := by
  constructor <;> intro h <;>
    · unfold retry_transcription
      rw [hfetch]
      simp [h]

/-- Witness for `c3_retry_gating`: a record in status `pending` is
rejected with `invalid_retry` and nothing is written. -/
theorem c3_retry_gating_witness :
    ("pending" ≠ "error" →
      retry_transcription cexDb "m1" "production" cexOutcomes =
        (Except.error ⟨400, "invalid_retry", invalidRetryMessage "pending"⟩, cexDb)) ∧
    ("pending" = "error" →
      retry_transcription cexDb "m1" "production" cexOutcomes =
        transcribe_audio cexDb "m1" "production" cexOutcomes) :=
  c3_retry_gating cexDb "m1" "production" cexOutcomes
    ⟨"m1", "pending", "a.m4a", none⟩ (by decide)

/-- The local filesystem, as the set of existing paths. -/
def FileSystem : Type := String → Bool

/-- `os.path.exists`. -/
def os_path_exists (fs : FileSystem) (p : String) : Bool := fs p

/-- `os.remove` (the embedding assumes the filesystem honours the
removal, the only failure mode the service code distinguishes). -/
def os_remove (fs : FileSystem) (p : String) : FileSystem :=
  fun q => if q = p then false else fs q

/-- Embeds `TranscriptionService.transcribe` (transcription_service.py
lines 24-87): raise `FileNotFoundError` when the path does not exist;
otherwise call the Whisper API (outcome `api`), and in the `finally`
block remove the scratch file whether the call succeeded or failed. -/
def transcribe (fs : FileSystem) (file_path : String) (api : Except String String) :
    Except String String × FileSystem :=
  if os_path_exists fs file_path = false then
    (Except.error ("Audio file not found: " ++ file_path), fs)
  else
    let fs2 := if os_path_exists fs file_path then os_remove fs file_path else fs
    match api with
    | Except.ok text => (Except.ok text, fs2)
    | Except.error e => (Except.error e, fs2)

/-- Claim C7: after `transcribe` on an existing local audio file returns
or raises — whatever the hosted API outcome — the scratch file at that
path no longer exists. -/
theorem c7_scratch_file_removed (fs : FileSystem) (file_path : String)
    (api : Except String String)
    (hexists : fs file_path = true) :
    os_path_exists (transcribe fs file_path api).2 file_path = false := by
  unfold transcribe os_path_exists
  rw [hexists]
  cases api <;> simp [os_remove]

/-- Concrete one-file filesystem for the C7 witness. -/
def cexFs : FileSystem := fun p => p == "/tmp/a.m4a"

/-- Witness for `c7_scratch_file_removed` on a successful API call. -/
theorem c7_scratch_file_removed_witness :
    os_path_exists (transcribe cexFs "/tmp/a.m4a" (Except.ok "T")).2 "/tmp/a.m4a" = false :=
  c7_scratch_file_removed cexFs "/tmp/a.m4a" (Except.ok "T") (by decide)

/-- The `/health` handler response (main.py lines 288-297), as its list
of JSON fields: it carries only `status` and `service`. -/
def health_check : List (String × String) :=
  [("status", "healthy"), ("service", "Dialect Transcription Service")]

/-- Claim C9, divergence: the `/health` response contains no `supabase`
and no `openai` reachability booleans (the keys `tests/test_api.py`
expects); it only ever reports the fixed `status`/`service` payload. -/
theorem c9_health_no_reachability_fields :
    health_check.lookup "supabase" = none ∧
    health_check.lookup "openai" = none ∧
    health_check.lookup "status" = some "healthy" ∧
    health_check.lookup "service" = some "Dialect Transcription Service" := by
  decide

/-- The `memo_replies` record of the C8 scenario from
`test_record_types.py`: keyed by `reply_id = "456"`. -/
def cexReply : ReplyRow :=
  ⟨"456", "pending", "thread-replies/room_789/reply_456.m4a", none⟩

/-- A database holding only that reply — no `memos` row with id `456`. -/
def cexReplyDb : Database := ⟨[], [cexReply]⟩

/-- Claim C8, divergence: the shipped `get_memo` looks up the `memos`
table by `id` regardless of any record type, so the lookup fails on a
database whose only matching record is the `memo_replies` row keyed by
`reply_id = "456"` — even though that reply row is present. -/
theorem c8_record_type_ignored :
    get_memo cexReplyDb "456" = Except.error "Memo with ID 456 not found" ∧
    cexReplyDb.memo_replies.find? (fun r => r.reply_id == "456") = some cexReply := by
  decide

/-- Python `str.lower()` on the ASCII names this service handles,
defined structurally so that concrete instances evaluate. -/
def py_lower (s : String) : String := String.mk (s.data.map Char.toLower)

/-- The configuration `SupabaseService.__init__` receives
(supabase_service.py lines 13-94): per-environment URL/key/branch
strings, plus the process-wide `ENV` variable (`none` when unset). -/
structure SupabaseConfig where
  url_prod : String
  key_prod : String
  branch_prod : String
  url_staging : String
  key_staging : String
  branch_staging : String
  url_local : String
  key_local : String
  branch_local : String
  env_var : Option String
deriving DecidableEq

/-- A client handle is identified by the (url, key) pair it was created
from (`create_client(url, key)`). -/
abbrev SupaClient : Type := String × String

/-- The `self.clients` dict built by `__init__`: an environment is
configured exactly when both its URL and key are non-empty (Python
truthiness of `url and key`), inserted in the order production,
staging, local. -/
def configuredClients (c : SupabaseConfig) : List (String × SupaClient) :=
  (if c.url_prod ≠ "" ∧ c.key_prod ≠ "" then
    [("production", (c.url_prod, c.key_prod))] else []) ++
  (if c.url_staging ≠ "" ∧ c.key_staging ≠ "" then
    [("staging", (c.url_staging, c.key_staging))] else []) ++
  (if c.url_local ≠ "" ∧ c.key_local ≠ "" then
    [("local", (c.url_local, c.key_local))] else [])

/-- The `self.branches` dict: a branch is recorded only for a configured
environment whose branch string is non-empty. -/
def configuredBranches (c : SupabaseConfig) : List (String × String) :=
  (if c.url_prod ≠ "" ∧ c.key_prod ≠ "" ∧ c.branch_prod ≠ "" then
    [("production", c.branch_prod)] else []) ++
  (if c.url_staging ≠ "" ∧ c.key_staging ≠ "" ∧ c.branch_staging ≠ "" then
    [("staging", c.branch_staging)] else []) ++
  (if c.url_local ≠ "" ∧ c.key_local ≠ "" ∧ c.branch_local ≠ "" then
    [("local", c.branch_local)] else [])

/-- `os.getenv("ENV", "production").lower()` (supabase_service.py
line 72). -/
def system_env (c : SupabaseConfig) : String :=
  py_lower (c.env_var.getD "production")

/-- The first assignment of `__init__` line 76: the lowercased `ENV`
value if it is configured, else `production`. -/
def defaultCandidate (c : SupabaseConfig) : String :=
  if ((configuredClients c).lookup (system_env c)).isSome then system_env c
  else "production"

/-- `self.default_environment` as chosen by `__init__` (lines 75-81):
the candidate above, fixed up to the first configured environment in
insertion order when the candidate is not configured (unchanged when
nothing is configured at all). -/
def default_environment (c : SupabaseConfig) : String :=
  if ((configuredClients c).lookup (defaultCandidate c)).isSome then defaultCandidate c
  else
    match (configuredClients c).map Prod.fst with
    | [] => defaultCandidate c
    | e :: _ => e

/-- Embeds `SupabaseService.get_client` (supabase_service.py lines
96-127): fall back to the default when the request gives no environment
(or the empty string, which is falsy in Python), lowercase the name,
then fail with a `ValueError` (`UnknownEnvironment`) when no client is
configured under that name, else return the client and its branch. -/
def get_client (c : SupabaseConfig) (environment : Option String) :
    Except String (SupaClient × Option String) :=
  let env0 := match environment with
    | some e => if e = "" then default_environment c else e
    | none => default_environment c
  let env := py_lower env0
  match (configuredClients c).lookup env with
  | none => Except.error ("No Supabase client available for environment: " ++ env)
  | some cl => Except.ok (cl, (configuredBranches c).lookup env)

/-- Claim C4: resolving an explicitly given, unconfigured environment
name fails with the `UnknownEnvironment` error and never substitutes the
default; and against an empty registry every resolution fails. -/
theorem c4_unknown_environment (c : SupabaseConfig) (name : String)
    (hname : name ≠ "")
    (hmiss : (configuredClients c).lookup (py_lower name) = none)
    (c2 : SupabaseConfig) (hempty : configuredClients c2 = [])
    (req : Option String) :
    get_client c (some name) =
      Except.error ("No Supabase client available for environment: " ++ py_lower name) ∧
    (∃ msg, get_client c2 req = Except.error msg) := by
  constructor
  · simp [get_client, hname, hmiss]
  · unfold get_client
    rw [hempty]
    cases req with
    | none => exact ⟨_, rfl⟩
    | some e =>
      by_cases he : e = "" <;> simp [he, List.lookup]

/-- Config with only production configured (C4/C10 witnesses). -/
def cexCfgProd : SupabaseConfig :=
  ⟨"urlp", "keyp", "main", "", "", "", "", "", "", none⟩

/-- Config with nothing configured: the empty registry. -/
def cexCfgEmpty : SupabaseConfig :=
  ⟨"", "", "", "", "", "", "", "", "", none⟩

/-- Witness for `c4_unknown_environment`: the name `nosuch` is rejected
against a production-only registry, and the empty registry rejects even
`production`. -/
theorem c4_unknown_environment_witness :
    get_client cexCfgProd (some "nosuch") =
      Except.error ("No Supabase client available for environment: " ++ py_lower "nosuch") ∧
    (∃ msg, get_client cexCfgEmpty (some "production") = Except.error msg) :=
  c4_unknown_environment cexCfgProd "nosuch" (by decide) (by decide)
    cexCfgEmpty (by decide) (some "production")

/-- The claims description of the startup default: the first configured
environment in insertion order — production, then staging, then local.
Stated from the spec words, to be compared with `default_environment`. -/
def specFirstConfigured (c : SupabaseConfig) : String :=
  if c.url_prod ≠ "" ∧ c.key_prod ≠ "" then "production"
  else if c.url_staging ≠ "" ∧ c.key_staging ≠ "" then "staging"
  else "local"

/-- Claim C5: with at least one environment configured, the startup
default equals the (lowercased) `ENV` selector when that names a
configured environment, and otherwise equals the first configured
environment in insertion order (production, then staging, then local). -/
theorem c5_default_environment (c : SupabaseConfig)
    (hne : configuredClients c ≠ []) :
    (((configuredClients c).lookup (system_env c)).isSome = true →
        default_environment c = system_env c) ∧
    ((configuredClients c).lookup (system_env c) = none →
        default_environment c = specFirstConfigured c) := by
  constructor
  · intro h
    have hcand : defaultCandidate c = system_env c := by
      simp [defaultCandidate, h]
    simp [default_environment, hcand, h]
  · intro h
    have hcand : defaultCandidate c = "production" := by
      simp [defaultCandidate, h]
    have hPS : (("production" : String) == "staging") = false := by decide
    have hPL : (("production" : String) == "local") = false := by decide
    rw [default_environment, hcand]
    by_cases hp : c.url_prod ≠ "" ∧ c.key_prod ≠ ""
    · have hc : configuredClients c =
          ("production", (c.url_prod, c.key_prod)) ::
            ((if c.url_staging ≠ "" ∧ c.key_staging ≠ "" then
                [("staging", (c.url_staging, c.key_staging))] else []) ++
             (if c.url_local ≠ "" ∧ c.key_local ≠ "" then
                [("local", (c.url_local, c.key_local))] else [])) := by
        simp [configuredClients, hp]
      rw [hc]
      simp [List.lookup, specFirstConfigured, hp]
    · by_cases hs : c.url_staging ≠ "" ∧ c.key_staging ≠ ""
      · have hc : configuredClients c =
            ("staging", (c.url_staging, c.key_staging)) ::
              (if c.url_local ≠ "" ∧ c.key_local ≠ "" then
                [("local", (c.url_local, c.key_local))] else []) := by
          simp [configuredClients, hp, hs]
        rw [hc]
        by_cases hl : c.url_local ≠ "" ∧ c.key_local ≠ ""
        · simp [List.lookup, hl, hPS, hPL, specFirstConfigured, hp, hs]
        · simp [List.lookup, hl, hPS, specFirstConfigured, hp, hs]
      · by_cases hl : c.url_local ≠ "" ∧ c.key_local ≠ ""
        · have hc : configuredClients c = [("local", (c.url_local, c.key_local))] := by
            simp [configuredClients, hp, hs, hl]
          rw [hc]
          simp [List.lookup, hPL, specFirstConfigured, hp, hs]
        · exact absurd (by simp [configuredClients, hp, hs, hl]) hne

/-- Config with staging and local configured and an unconfigured `ENV`
selector (C5 witness). -/
def cexCfgStagLocal : SupabaseConfig :=
  ⟨"", "", "", "urls", "keys", "", "urll", "keyl", "", some "FOO"⟩

/-- Witness for `c5_default_environment`: with production unconfigured
and selector `FOO`, the default falls back to `staging`. -/
theorem c5_default_environment_witness :
    (((configuredClients cexCfgStagLocal).lookup (system_env cexCfgStagLocal)).isSome = true →
        default_environment cexCfgStagLocal = system_env cexCfgStagLocal) ∧
    ((configuredClients cexCfgStagLocal).lookup (system_env cexCfgStagLocal) = none →
        default_environment cexCfgStagLocal = specFirstConfigured cexCfgStagLocal) :=
  c5_default_environment cexCfgStagLocal (by decide)

/-- Claim C10: environment resolution is case-insensitive — a requested
name is lowercased, and when the lowercased form is configured,
`get_client` returns that configured client (with its branch) instead of
failing. -/
theorem c10_case_insensitive (c : SupabaseConfig) (name : String)
    (hname : name ≠ "") (cl : SupaClient)
    (hfound : (configuredClients c).lookup (py_lower name) = some cl) :
    get_client c (some name) =
      Except.ok (cl, (configuredBranches c).lookup (py_lower name)) := by
  simp [get_client, hname, hfound]

/-- Witness for `c10_case_insensitive`: `PRODUCTION` resolves to the
configured production client. -/
theorem c10_case_insensitive_witness :
    get_client cexCfgProd (some "PRODUCTION") =
      Except.ok (("urlp", "keyp"), (configuredBranches cexCfgProd).lookup (py_lower "PRODUCTION")) :=
  c10_case_insensitive cexCfgProd "PRODUCTION" (by decide) ("urlp", "keyp") (by decide)

/-- `self.storage_bucket` (supabase_service.py line 84). -/
def storage_bucket : String := "audio_memos"

/-- The separator `f"{self.storage_bucket}/"` used by `download_audio`
(supabase_service.py lines 230-239), as a character list. Python strings
are modelled as `List Char` in this section so that the splitting
function is structurally recursive and evaluates. -/
def marker : List Char := (storage_bucket ++ "/").data

/-- Python `f"{self.storage_bucket}/" in audio_url`: substring
containment of the bucket marker, checked at every position. -/
def containsMarker : List Char → Bool
  | [] => marker.isPrefixOf []
  | c :: rest => marker.isPrefixOf (c :: rest) || containsMarker rest

/-- Python `audio_url.split(f"{self.storage_bucket}/")` specialised to
the bucket marker: cut at every non-overlapping occurrence, scanning
left to right; `acc` holds the current piece reversed. -/
def pySplitAux : List Char → List Char → List (List Char)
  | [], acc => [acc.reverse]
  | c :: rest, acc =>
    if marker.isPrefixOf (c :: rest) then
      acc.reverse :: pySplitAux ((c :: rest).drop marker.length) []
    else
      pySplitAux rest (c :: acc)
termination_by s _ => s.length
decreasing_by
  · have h12 : marker.length = 12 := rfl
    simp [List.length_drop, h12]
    omega
  · simp

/-- `path_parts = audio_url.split(f"{self.storage_bucket}/")`. -/
def pySplit (s : List Char) : List (List Char) := pySplitAux s []

/-- The blob-path extraction of `SupabaseService.download_audio`
(supabase_service.py lines 226-239): when the reference contains the
bucket marker, split on it and take `path_parts[1]` (raising on a
malformed split); otherwise use the reference itself as the path. -/
def extract_file_path (audio_url : List Char) : Except (List Char) (List Char) :=
  if containsMarker audio_url then
    if (pySplit audio_url).length < 2 then
      Except.error (("Invalid audio URL format: ").data ++ audio_url)
    else
      Except.ok ((pySplit audio_url).getD 1 [])
  else
    Except.ok audio_url

/-- Helper for `os.path.rfind`: index of the last occurrence. -/
def lastIndexOfAux (c : Char) : List Char → Nat → Option Nat → Option Nat
  | [], _, best => best
  | x :: xs, i, best => lastIndexOfAux c xs (i + 1) (if x = c then some i else best)

def lastIndexOf (c : Char) (s : List Char) : Option Nat := lastIndexOfAux c s 0 none

/-- `os.path.splitext(p)[1]` (posixpath): the extension starting at the
last dot, provided that dot comes after the last path separator and the
basename up to it is not made only of dots. -/
def splitext_ext (p : List Char) : List Char :=
  match lastIndexOf '.' p with
  | none => []
  | some d =>
    let fi : Nat := match lastIndexOf '/' p with
      | none => 0
      | some s => s + 1
    if (match lastIndexOf '/' p with
        | none => true
        | some s => decide (s < d)) then
      if ((p.drop fi).take (d - fi)).any (fun ch => ch != '.') then p.drop d
      else []
    else []

/-- The scratch-file name `download_audio` creates
(supabase_service.py lines 244-248): a fresh unique base name (modelled
as an arbitrary `base`) carrying `suffix=file_extension` where
`file_extension = os.path.splitext(file_path)[1]`. -/
def download_audio_scratch (audio_url base : List Char) : Except (List Char) (List Char) :=
  (extract_file_path audio_url).map (fun fp => base ++ splitext_ext fp)

/-- The claims wording -- the reference with the bucket-name prefix
stripped -- written from the spec words, for comparison with
`extract_file_path`. -/
def strippedReference (audio_url : List Char) : List Char :=
  if marker.isPrefixOf audio_url then audio_url.drop marker.length else audio_url

theorem isPrefixOf_append_self (l r : List Char) : l.isPrefixOf (l ++ r) = true := by
  induction l with
  | nil => cases r <;> rfl
  | cons a as ih => simp [List.isPrefixOf, ih]

theorem drop_len_append (l r : List Char) : (l ++ r).drop l.length = r := by
  induction l with
  | nil => simp
  | cons a as ih => simp

theorem containsMarker_of_isPrefixOf (s : List Char)
    (h : marker.isPrefixOf s = true) : containsMarker s = true := by
  cases s with
  | nil => simpa [containsMarker] using h
  | cons c r => simp [containsMarker, h]

theorem pySplitAux_no_marker (s : List Char) (h : containsMarker s = false) :
    ∀ acc, pySplitAux s acc = [acc.reverse ++ s] := by
  induction s with
  | nil => intro acc; simp [pySplitAux]
  | cons c rest ih =>
    intro acc
    have h2 : marker.isPrefixOf (c :: rest) = false ∧ containsMarker rest = false := by
      simpa [containsMarker, Bool.or_eq_false_iff] using h
    rw [pySplitAux]
    simp [h2.1, ih h2.2]

theorem pySplitAux_marker_head (rest : List Char) :
    ∀ acc, pySplitAux (marker ++ rest) acc = acc.reverse :: pySplitAux rest [] := by
  intro acc
  have hne : marker ++ rest ≠ [] := by
    have hm : marker = 'a' :: ("udio_memos/").data := rfl
    rw [hm]
    simp
  cases he : marker ++ rest with
  | nil => exact absurd he hne
  | cons c s2 =>
    have hpre : marker.isPrefixOf (c :: s2) = true := by
      rw [← he]
      exact isPrefixOf_append_self marker rest
    have hdrop : (c :: s2).drop marker.length = rest := by
      rw [← he]
      exact drop_len_append marker rest
    rw [pySplitAux]
    simp [hpre, hdrop]

theorem pySplit_marker_single (rest : List Char) (h : containsMarker rest = false) :
    pySplit (marker ++ rest) = [[], rest] := by
  unfold pySplit
  rw [pySplitAux_marker_head rest []]
  rw [pySplitAux_no_marker rest h []]
  simp

theorem extract_single (rest : List Char) (h : containsMarker rest = false) :
    extract_file_path (marker ++ rest) = Except.ok rest := by
  have hc := containsMarker_of_isPrefixOf (marker ++ rest) (isPrefixOf_append_self marker rest)
  have hs := pySplit_marker_single rest h
  simp [extract_file_path, hc, hs]

theorem extract_bare (u : List Char) (h : containsMarker u = false) :
    extract_file_path u = Except.ok u := by
  simp [extract_file_path, h]

theorem suffix_of_append (l r : List Char) : r.isSuffixOf (l ++ r) = true := by
  simp [List.isSuffixOf, List.reverse_append]

/-- A reference in bucket-prefix form whose path part itself contains
the bucket marker again. -/
def doubleMarkerUrl : List Char := ("audio_memos/audio_memos/f.m4a").data

/-- Claim C6, counterexample: for the bucket-prefix-form reference
`audio_memos/audio_memos/f.m4a`, the reference with the bucket prefix
stripped is `audio_memos/f.m4a`, but `path_parts[1]` of the Python
split is the empty segment between the two marker occurrences, so the
extracted path differs from the prefix-stripped reference. -/
theorem c6_counterexample :
    marker.isPrefixOf doubleMarkerUrl = true ∧
    strippedReference doubleMarkerUrl = ("audio_memos/f.m4a").data ∧
    extract_file_path doubleMarkerUrl = Except.ok [] ∧
    (Except.ok ([] : List Char) : Except (List Char) (List Char)) ≠
      Except.ok (("audio_memos/f.m4a").data) := by
  have he : doubleMarkerUrl = marker ++ (marker ++ ("f.m4a").data) := rfl
  have hf : containsMarker (("f.m4a").data) = false := by decide
  refine ⟨by decide, by decide, ?_, by decide⟩
  rw [he]
  have hc := containsMarker_of_isPrefixOf (marker ++ (marker ++ ("f.m4a").data))
    (isPrefixOf_append_self marker (marker ++ ("f.m4a").data))
  have hsplit : pySplit (marker ++ (marker ++ ("f.m4a").data)) =
      [[], [], ("f.m4a").data] := by
    unfold pySplit
    rw [pySplitAux_marker_head (marker ++ ("f.m4a").data) []]
    rw [pySplitAux_marker_head (("f.m4a").data) []]
    rw [pySplitAux_no_marker (("f.m4a").data) hf []]
    simp
  simp [extract_file_path, hc, hsplit]

/-- Claim C6 (amended): the extracted blob path equals the reference
with the bucket prefix stripped when the reference is the bucket marker
followed by a path free of further marker occurrences; a bare reference
without the marker passes through unchanged; and the scratch file name
carries exactly the `os.path.splitext` extension of the extracted path.
(When the marker occurs again inside the path part, the code instead
returns the segment between the first two occurrences, see the
counterexample.) -/
theorem c6_download_path_extraction (rest u base : List Char)
    (h1 : containsMarker rest = false) (h2 : containsMarker u = false) :
    extract_file_path (marker ++ rest) = Except.ok rest ∧
    strippedReference (marker ++ rest) = rest ∧
    extract_file_path u = Except.ok u ∧
    download_audio_scratch (marker ++ rest) base = Except.ok (base ++ splitext_ext rest) ∧
    (splitext_ext rest).isSuffixOf (base ++ splitext_ext rest) = true := by
  refine ⟨extract_single rest h1, ?_, extract_bare u h2, ?_, suffix_of_append base _⟩
  · simp [strippedReference, isPrefixOf_append_self, drop_len_append]
  · simp [download_audio_scratch, extract_single rest h1, Except.map]

/-- Witness for `c6_download_path_extraction` on the reference
`audio_memos/user_123.m4a` and the bare reference `user_123.m4a`. -/
theorem c6_download_path_extraction_witness :
    extract_file_path (marker ++ ("user_123.m4a").data) =
      Except.ok (("user_123.m4a").data) ∧
    strippedReference (marker ++ ("user_123.m4a").data) = ("user_123.m4a").data ∧
    extract_file_path (("user_123.m4a").data) = Except.ok (("user_123.m4a").data) ∧
    download_audio_scratch (marker ++ ("user_123.m4a").data) (("/tmp/tmpq8x").data) =
      Except.ok ((("/tmp/tmpq8x").data) ++ splitext_ext (("user_123.m4a").data)) ∧
    (splitext_ext (("user_123.m4a").data)).isSuffixOf
      ((("/tmp/tmpq8x").data) ++ splitext_ext (("user_123.m4a").data)) = true :=
  c6_download_path_extraction (("user_123.m4a").data) (("user_123.m4a").data)
    (("/tmp/tmpq8x").data) (by decide) (by decide)
